import Mathlib

/-!
# PDM telemetry protocol and simulation engine: a verification development

A shallow embedding, in Lean 4, of the core of the PDM (Power Distribution
Module) telemetry repository: the 58-byte binary frame codec, the consumer's
packet parser and channel store (`usb_reader.py`), the scenario engine
(`test_cases.py`), and the producer simulator tick (`stm32_sim.py`).

Python floats are embedded as exact rationals (`ℚ`), machine integers as
`ℕ`/`ℤ` with explicit range conditions, byte strings as `List ℕ`, and the
fallible `struct.pack` as an `Option`-valued packer.  Randomness
(`random.uniform`) and wall-clock time (`time.time()`) are passed in as
explicit parameters.  File I/O (trigger/control/status JSON files) is
modelled by `Option`-valued inputs to the tick function.
-/

/-! ## Python numeric primitives

`int()` on a float truncates toward zero; `round(x, k)` rounds half to even
at `k` decimal places.  Both are embedded exactly over `ℚ`. -/

/-- Python `int(q)`: truncation toward zero. -/
def pytrunc (q : ℚ) : ℤ := if 0 ≤ q then ⌊q⌋ else -⌊-q⌋

/-- Round half to even, to the nearest integer (Python `round(q)`). -/
def rhe (q : ℚ) : ℤ :=
  if q - ⌊q⌋ < 1/2 then ⌊q⌋
  else if q - ⌊q⌋ > 1/2 then ⌊q⌋ + 1
  else if ⌊q⌋ % 2 = 0 then ⌊q⌋ else ⌊q⌋ + 1

/-- Python `round(q, k)`: round half to even at `k` decimal places. -/
def pyround (q : ℚ) (k : ℕ) : ℚ := (rhe (q * 10 ^ k) : ℚ) / 10 ^ k

/-! ## Producer data model and frame encoder (`stm32_sim.py`, `test_cases.py`)

One entry of `channels_state`: the dict
`{"voltage": .., "current": .., "temp": .., "status": ..}`. -/

/-- One producer-side channel state (a `channels_state` entry). -/
structure ChannelState where
  voltage : ℚ
  current : ℚ
  temp : ℚ
  status : ℕ
deriving Repr, DecidableEq

/-- Default used for (guarded, never out-of-range) list indexing. -/
def chDefault : ChannelState := ⟨0, 0, 0, 0⟩

/-- Scaled integer forms packed by `_make_packet`:
`voltage_mv = int(ch["voltage"] * 1000)`. -/
def scaledV (ch : ChannelState) : ℤ := pytrunc (ch.voltage * 1000)

/-- `current_ma = int(ch["current"] * 1000)`. -/
def scaledC (ch : ChannelState) : ℤ := pytrunc (ch.current * 1000)

/-- `temp_dec = int(ch["temp"] * 10)`. -/
def scaledT (ch : ChannelState) : ℤ := pytrunc (ch.temp * 10)

/-- `struct.pack("<H", x)`: two little-endian bytes; Python raises
`struct.error` (here: `none`) when `x` is outside `[0, 65535]`. -/
def packU16 (x : ℤ) : Option (List ℕ) :=
  if 0 ≤ x ∧ x ≤ 65535 then some [x.toNat % 256, x.toNat / 256] else none

/-- `struct.pack("<h", x)`: two's-complement little-endian bytes; `none`
(`struct.error`) when `x` is outside `[-32768, 32767]`. -/
def packS16 (x : ℤ) : Option (List ℕ) :=
  if -32768 ≤ x ∧ x ≤ 32767 then
    some [(x % 65536).toNat % 256, (x % 65536).toNat / 256]
  else none

/-- `struct.pack("<B", x)`: one byte; `none` (`struct.error`) outside `[0, 255]`. -/
def packU8 (x : ℕ) : Option (List ℕ) := if x ≤ 255 then some [x] else none

/-- The 7-byte record `struct.pack("<HHhB", voltage_mv, current_ma, temp_dec,
ch["status"])` of `STM32Simulator._make_packet`. -/
def packRecord (ch : ChannelState) : Option (List ℕ) := do
  let v ← packU16 (scaledV ch)
  let c ← packU16 (scaledC ch)
  let t ← packS16 (scaledT ch)
  let s ← packU8 ch.status
  return v ++ c ++ t ++ s

/-- `STM32Simulator._make_packet`: sync byte `0xAA`, eight 7-byte channel
records, and a trailing XOR checksum of all 57 preceding bytes.  `none`
models a `struct.error` escaping the packing loop. -/
def make_packet (chs : List ChannelState) : Option (List ℕ) := do
  let recs ← chs.mapM packRecord
  let body := 0xAA :: recs.flatten
  return body ++ [body.foldl (· ^^^ ·) 0]

/-! ## Consumer store and packet parser (`usb_reader.py`) -/

/-- Decoded status bit flags, as stored in `pdm_data` by `parse_packet`. -/
structure StatusFlags where
  on_flag : Bool
  fault : Bool
  over_current : Bool
  over_temp : Bool
deriving Repr, DecidableEq

/-- One entry of `pdm_data["channels"]`. -/
structure StoreChannel where
  id : ℕ
  name : String
  voltage : ℚ
  current : ℚ
  temperature : ℚ
  status : StatusFlags
deriving Repr, DecidableEq

/-- Default used for (guarded) list indexing into the store. -/
def scDefault : StoreChannel := ⟨0, "", 0, 0, 0, ⟨false, false, false, false⟩⟩

/-- The shared snapshot `pdm_data`.  The timestamp is `none` until the first
successful parse writes `datetime.now().isoformat()` (passed in as `now`). -/
structure PdmData where
  timestamp : Option String
  system_voltage : ℚ
  total_current : ℚ
  channels : List StoreChannel
deriving Repr, DecidableEq

/-- `CHANNEL_NAMES` of `usb_reader.py`. -/
def CHANNEL_NAMES : List String :=
  ["ECU", "Fuel Pump", "Ignition Coil", "Radiator Fan",
   "Data Logger", "Dashboard", "Sensors", "Starter Motor"]

/-- The initial `pdm_data` global of `usb_reader.py`. -/
def initStore : PdmData :=
  { timestamp := none
    system_voltage := 0
    total_current := 0
    channels := (List.range 8).map fun i =>
      { id := i, name := CHANNEL_NAMES.getD i "", voltage := 0, current := 0,
        temperature := 0, status := ⟨false, false, false, false⟩ } }

/-- `struct.unpack_from("<H", packet, o)`: little-endian unsigned 16-bit. -/
def unpackU16 (p : List ℕ) (o : ℕ) : ℕ := p.getD o 0 + 256 * p.getD (o + 1) 0

/-- `struct.unpack_from("<h", packet, o)`: little-endian signed 16-bit. -/
def unpackS16 (p : List ℕ) (o : ℕ) : ℤ :=
  if unpackU16 p o < 32768 then (unpackU16 p o : ℤ)
  else (unpackU16 p o : ℤ) - 65536

/-- Channel `i`'s record sits at offset `1 + 7*i`; `voltage = voltage_mv / 1000.0`. -/
def decodedVoltage (p : List ℕ) (i : ℕ) : ℚ := (unpackU16 p (1 + 7 * i) : ℚ) / 1000

/-- `current = current_ma / 1000.0`. -/
def decodedCurrent (p : List ℕ) (i : ℕ) : ℚ := (unpackU16 p (3 + 7 * i) : ℚ) / 1000

/-- `temperature = temp_dec / 10.0`. -/
def decodedTemp (p : List ℕ) (i : ℕ) : ℚ := (unpackS16 p (5 + 7 * i) : ℚ) / 10

/-- The raw status byte of channel `i`. -/
def decodedStatus (p : List ℕ) (i : ℕ) : ℕ := p.getD (7 + 7 * i) 0

/-- The per-channel store write of `USBReader.parse_packet`: unit conversion,
the `channel_enabled` override (disabled ⇒ off with zero current), rounding,
and the status-bit decomposition.  `id`/`name` of the old entry are kept
(`dict.update` only rewrites the listed keys). -/
def parsedChannel (mask : ℕ → Bool) (p : List ℕ) (i : ℕ) (old : StoreChannel) :
    StoreChannel :=
  { old with
    voltage := pyround (decodedVoltage p i) 2
    current := pyround (if mask i then decodedCurrent p i else 0) 2
    temperature := pyround (decodedTemp p i) 1
    status :=
      { on_flag := if mask i then decide (decodedStatus p i &&& 1 ≠ 0) else false
        fault := decide (decodedStatus p i &&& 2 ≠ 0)
        over_current := decide (decodedStatus p i &&& 4 ≠ 0)
        over_temp := decide (decodedStatus p i &&& 8 ≠ 0) } }

/-- The post-override current of channel `i` accumulated into `total_current`
(before rounding). -/
def parsedCurrent (mask : ℕ → Bool) (p : List ℕ) (i : ℕ) : ℚ :=
  if mask i then decodedCurrent p i else 0

/-- The full store rewrite performed by `parse_packet` on an accepted frame. -/
def parseUpdate (mask : ℕ → Bool) (store : PdmData) (p : List ℕ) (now : String) :
    PdmData :=
  let channels := (List.range 8).map fun i =>
    parsedChannel mask p i (store.channels.getD i scDefault)
  { timestamp := some now
    system_voltage := pyround (channels.getD 0 scDefault).voltage 2
    total_current := pyround (((List.range 8).map (parsedCurrent mask p)).sum) 2
    channels := channels }

/-- `USBReader.parse_packet`: validates length (58), sync byte (`0xAA`) and
the XOR checksum of bytes `[0, 57)` against byte 57, in that order; on
acceptance rewrites the shared `pdm_data` store and returns `True`, otherwise
returns `False` with the store untouched.  The enable mask `channel_enabled`
and the wall-clock timestamp are explicit parameters. -/
def parse_packet (mask : ℕ → Bool) (store : PdmData) (p : List ℕ) (now : String) :
    Bool × PdmData :=
  if p.length ≠ 58 then (false, store)
  else if p.getD 0 0 ≠ 0xAA then (false, store)
  else if (p.take 57).foldl (· ^^^ ·) 0 ≠ p.getD 57 0 then (false, store)
  else (true, parseUpdate mask store p now)

/-! ## Scenario engine (`test_cases.py`) -/

/-- A `TestScenario`: name, description, fixed 5-second duration, the ordered
`(time, message)` event list, and the deterministic channel-state function. -/
structure Scenario where
  name : String
  description : String
  duration : ℚ
  events : List (ℚ × String)
  get_channel_states : ℚ → List ChannelState

/-- `TestScenario.get_event_at_time`: scan the event list in order, keeping
the message of every event whose time has been reached. -/
def get_event_at_time (events : List (ℚ × String)) (elapsed_time : ℚ) : String :=
  events.foldl
    (fun current_event e => if elapsed_time ≥ e.1 then e.2 else current_event)
    "Normal operation"

/-- `CoolingFanFailure.events`. -/
def coolingFanEvents : List (ℚ × String) :=
  [(0.0, "Normal operation - all systems healthy"),
   (2.0, "Bump! Fan connector loosened"),
   (2.5, "Fan power dropping..."),
   (3.0, "Fan stopped - fault detected"),
   (3.5, "Temperature rising rapidly"),
   (4.0, "Warning: High temperature detected"),
   (4.5, "System continues running on reduced cooling")]

/-- The base states list of `CoolingFanFailure.get_channel_states`. -/
def coolingFanBase : List ChannelState :=
  [⟨13.8, 5.2, 45.0, 1⟩, ⟨13.8, 3.5, 38.0, 1⟩, ⟨13.8, 4.8, 42.0, 1⟩,
   ⟨13.7, 8.0, 35.0, 1⟩, ⟨13.8, 1.2, 32.0, 1⟩, ⟨13.8, 0.8, 30.0, 1⟩,
   ⟨13.8, 2.1, 35.0, 1⟩, ⟨13.7, 0.0, 28.0, 0⟩]

/-- `CoolingFanFailure.get_channel_states`: fan (channel 3) current collapse
from `elapsed_time >= 2.0`, fault flag from `3.0`, and a temperature rise of
5 °C/s on channels 0-6 from `3.0`. -/
def coolingFanStates (elapsed_time : ℚ) : List ChannelState :=
  let states := coolingFanBase
  let states :=
    if 2.0 ≤ elapsed_time then
      if elapsed_time < 2.5 then
        states.set 3 { states.getD 3 chDefault with
          current := 8.0 * (1 - (elapsed_time - 2.0) / 0.5) }
      else if elapsed_time < 3.0 then
        states.set 3 { states.getD 3 chDefault with
          current := 4.0 * (1 - (elapsed_time - 2.5) / 0.5) }
      else
        states.set 3 { states.getD 3 chDefault with
          current := 0.0
          status := 2 }
    else states
  if 3.0 ≤ elapsed_time then
    states.mapIdx fun i ch =>
      if i < 7 then { ch with temp := ch.temp + (elapsed_time - 3.0) * 5.0 } else ch
  else states

/-- `EngineStartSequence.events`. -/
def engineStartEvents : List (ℚ × String) :=
  [(0.0, "Pre-start: Dashboard and sensors only"),
   (1.0, "Starter motor engaged - cranking"),
   (1.5, "High current draw - voltage dropping"),
   (2.0, "Cranking continues..."),
   (2.5, "Engine almost started..."),
   (3.0, "Engine started! All systems online"),
   (3.5, "Systems stabilizing"),
   (4.0, "Normal operation restored")]

/-- The base states list of `EngineStartSequence.get_channel_states`. -/
def engineStartBase : List ChannelState :=
  [⟨13.8, 0.0, 25.0, 0⟩, ⟨13.8, 0.0, 25.0, 0⟩, ⟨13.8, 0.0, 25.0, 0⟩,
   ⟨13.8, 0.0, 25.0, 0⟩, ⟨13.8, 1.2, 25.0, 1⟩, ⟨13.8, 0.8, 25.0, 1⟩,
   ⟨13.8, 2.1, 25.0, 1⟩, ⟨13.8, 0.0, 25.0, 0⟩]

/-- `EngineStartSequence.get_channel_states`: starter cranking on
`1.0 <= t < 3.0` with a 2.5 V sag on every channel, then from `3.0` the
starter stops, channels 0-2 come online and voltage snaps back to 13.8. -/
def engineStartStates (elapsed_time : ℚ) : List ChannelState :=
  let states := engineStartBase
  let base_voltage : ℚ := 13.8
  let states :=
    if 1.0 ≤ elapsed_time ∧ elapsed_time < 3.0 then
      let states := states.set 7 { states.getD 7 chDefault with
        status := 1
        current := 150.0 + (elapsed_time - 1.0) * 10.0 }
      states.map fun ch => { ch with voltage := base_voltage - 2.5 }
    else states
  if 3.0 ≤ elapsed_time then
    let states := states.set 7 { states.getD 7 chDefault with
      status := 0
      current := 0.0 }
    let states := states.set 0 ⟨13.8, 5.2, 30.0, 1⟩
    let states := states.set 1 ⟨13.8, 3.5, 28.0, 1⟩
    let states := states.set 2 ⟨13.8, 4.8, 32.0, 1⟩
    states.map fun ch => { ch with voltage := base_voltage }
  else states

/-- `SCENARIOS[1]`. -/
def coolingFanScenario : Scenario :=
  { name := "Cooling Fan Failure"
    description := "Fan disconnects at 2s, temperature rises"
    duration := 5.0
    events := coolingFanEvents
    get_channel_states := coolingFanStates }

/-- `SCENARIOS[2]`. -/
def engineStartScenario : Scenario :=
  { name := "Engine Start Sequence"
    description := "Starter engages at 1s, engine starts at 3s"
    duration := 5.0
    events := engineStartEvents
    get_channel_states := engineStartStates }

/-- `get_scenario`: the static id lookup into `SCENARIOS`. -/
def get_scenario (scenario_id : ℕ) : Option Scenario :=
  if scenario_id = 1 then some coolingFanScenario
  else if scenario_id = 2 then some engineStartScenario
  else none

/-! ## Producer simulator (`stm32_sim.py`) -/

/-- `ScenarioInfo` (the published scenario status). -/
structure ScenarioInfo where
  name : String
  description : String
  elapsed : ℚ
  status : String
  current_event : String

/-- The default `ScenarioInfo()`. -/
def idleInfo : ScenarioInfo :=
  { name := "Normal Operation"
    description := "All systems running normally"
    elapsed := 0
    status := "idle"
    current_event := "Normal operation" }

/-- The mutable state of `STM32Simulator`. -/
structure SimState where
  voltage : ℚ
  channels_state : List ChannelState
  active_scenario : Option Scenario
  scenario_started_at : ℚ
  scenario_info : ScenarioInfo

/-- The oracle supplying this tick's `random.uniform` draws: `sysJitter` for
the system-voltage walk, and per-channel draws for voltage jitter, the
starter's cranking current, and the current jitter around the baseline. -/
structure Env where
  sysJitter : ℚ
  vJitter : ℕ → ℚ
  starterDraw : ℕ → ℚ
  curJitter : ℕ → ℚ

/-- `STM32Simulator._maybe_start_scenario`, with the (consume-once) trigger
file content passed in as `trigger` and `time.time()` as `now`.  An unknown
id leaves the state unchanged. -/
def maybe_start_scenario (trigger : Option ℕ) (now : ℚ) (st : SimState) : SimState :=
  match trigger with
  | none => st
  | some sid =>
    match get_scenario sid with
    | none => st
    | some sc =>
      { st with
        active_scenario := some sc
        scenario_started_at := now
        scenario_info :=
          { name := sc.name
            description := sc.description
            elapsed := 0
            status := "active"
            current_event := "Starting…" } }

/-- `STM32Simulator._update_scenario_state` with `time.time()` passed as
`now`.  Idle when no scenario is active; on `elapsed >= duration` the
scenario is cleared and `"complete"` published; otherwise the scenario
drives `channels_state` and the current event label. -/
def update_scenario_state (now : ℚ) (st : SimState) : SimState :=
  match st.active_scenario with
  | none =>
    { st with scenario_info :=
        { st.scenario_info with
          status := "idle"
          elapsed := 0
          current_event := "Normal operation" } }
  | some sc =>
    let elapsed := now - st.scenario_started_at
    if elapsed ≥ sc.duration then
      { st with
        active_scenario := none
        scenario_info :=
          { st.scenario_info with
            elapsed := elapsed
            status := "complete"
            current_event := "Scenario complete" } }
    else
      { st with
        channels_state := sc.get_channel_states elapsed
        scenario_info :=
          { st.scenario_info with
            elapsed := elapsed
            status := "active"
            current_event := get_event_at_time sc.events elapsed } }

/-- `STM32Simulator._apply_channel_controls`, with the control-file content
passed as `ctrl`.  A well-formed 8-entry mask overwrites every channel's
status byte to exactly `0b1` (enabled) or `0b0` (disabled); nothing else is
touched. -/
def apply_channel_controls (ctrl : Option (List Bool)) (st : SimState) : SimState :=
  match ctrl with
  | none => st
  | some mask =>
    if mask.length = 8 then
      let chans := List.zipWith
        (fun on_entry ch => { ch with status := (if on_entry then 1 else 0) })
        mask st.channels_state
      { st with channels_state := chans }
    else st

/-- The per-channel nominal current baselines of `_update_sensors`. -/
def ambientBase (i : ℕ) : ℚ :=
  ([5.2, 3.5, 4.8, 8.0, 1.2, 0.8, 2.1, 100.0] : List ℚ).getD i 0

/-- One iteration of the `for i, ch in enumerate(self.channels_state)` loop
of `_update_sensors`: voltage jitter, current drawn to the baseline when on
(zero when off), first-order temperature relaxation with clamping, and the
cooling-fan auto-toggle on channel 3 (which reads the average over the list
as mutated so far). -/
def sensorStep (env : Env) (sysV : ℚ) (chs : List ChannelState) (i : ℕ) :
    List ChannelState :=
  let ch := chs.getD i chDefault
  let is_on := decide (ch.status &&& 1 ≠ 0)
  let ch := { ch with voltage := sysV + env.vJitter i }
  let ch :=
    if is_on then
      if i = 7 then { ch with current := env.starterDraw i }
      else { ch with current := max 0.5 (ambientBase i + env.curJitter i) }
    else { ch with current := 0 }
  let target : ℚ := if is_on then 25 + ch.current / 10 * 15 else 25
  let alpha : ℚ := if is_on then 0.05 else 0.02
  let ch := { ch with temp := ch.temp + (target - ch.temp) * alpha }
  let ch := { ch with temp := max 20 (min 100 ch.temp) }
  let chs := chs.set i ch
  if i = 3 then
    let avg_temp := ((chs.map ChannelState.temp).sum) / 8
    chs.set 3
      (if avg_temp > 40 ∧ is_on = false then { ch with status := 1 }
       else if avg_temp < 35 ∧ is_on = true then { ch with status := 0 }
       else ch)
  else chs

/-- `STM32Simulator._update_sensors`: a no-op while a scenario is active;
otherwise the bounded system-voltage walk followed by the per-channel loop. -/
def update_sensors (env : Env) (st : SimState) : SimState :=
  match st.active_scenario with
  | some _ => st
  | none =>
    let v := max 12.5 (min 14.5 (st.voltage + env.sysJitter))
    { st with
      voltage := v
      channels_state := (List.range 8).foldl (sensorStep env v) st.channels_state }

/-- One iteration of `STM32Simulator.run`'s state updates, in source order:
`_maybe_start_scenario`, `_update_scenario_state`, `_apply_channel_controls`,
`_update_sensors`.  The packet sent on this tick is
`make_packet (sim_tick ...).channels_state`. -/
def sim_tick (trigger : Option ℕ) (ctrl : Option (List Bool)) (env : Env)
    (now : ℚ) (st : SimState) : SimState :=
  update_sensors env
    (apply_channel_controls ctrl
      (update_scenario_state now
        (maybe_start_scenario trigger now st)))

/-! ## Concrete instances used by witnesses and counterexamples -/

/-- The `channels_state` initialised by `STM32Simulator.__init__`. -/
def initChannels : List ChannelState :=
  [⟨13.8, 5.2, 45.0, 1⟩, ⟨13.8, 3.5, 38.0, 1⟩, ⟨13.8, 4.8, 42.0, 1⟩,
   ⟨13.7, 8.0, 35.0, 1⟩, ⟨13.8, 1.2, 32.0, 1⟩, ⟨13.8, 0.8, 30.0, 1⟩,
   ⟨13.8, 2.1, 35.0, 1⟩, ⟨13.7, 0.0, 28.0, 0⟩]

/-- The simulator state right after `STM32Simulator.__init__`. -/
def initSimState : SimState :=
  { voltage := 13.8
    channels_state := initChannels
    active_scenario := none
    scenario_started_at := 0
    scenario_info := idleInfo }

/-- The simulator state with the cooling-fan scenario just triggered at 0 s. -/
def fanTriggeredState : SimState :=
  { voltage := 13.8
    channels_state := initChannels
    active_scenario := some coolingFanScenario
    scenario_started_at := 0
    scenario_info := idleInfo }

/-- A fixed random oracle (all draws zero). -/
def env0 : Env := ⟨0, fun _ => 0, fun _ => 0, fun _ => 0⟩

/-- The all-enabled `channel_enabled` mask (the reader's default). -/
def maskAll : ℕ → Bool := fun _ => true

/-- A 58-byte frame: sync byte, 56 zero payload bytes, checksum `0xAA`. -/
def syncPkt : List ℕ := 170 :: (List.replicate 56 0 ++ [170])

/-- A control-file mask disabling channel 0 only. -/
def offMask0 : List Bool := [false, true, true, true, true, true, true, true]

/-- The claim's reading of the lookup: the label of the last event in list
order whose threshold is ≤ `t`, defaulting to the normal-operation label. -/
def lastReachedEventLabel (events : List (ℚ × String)) (t : ℚ) : String :=
  (((events.filter fun e => decide (e.1 ≤ t)).getLast?).map Prod.snd).getD
    "Normal operation"

/-- A channel state whose scaled integer forms all fit their fixed-width
fields (and so pack without a `struct.error`). -/
def inRange (ch : ChannelState) : Prop :=
  0 ≤ scaledV ch ∧ scaledV ch ≤ 65535 ∧
  0 ≤ scaledC ch ∧ scaledC ch ≤ 65535 ∧
  -32768 ≤ scaledT ch ∧ scaledT ch ≤ 32767 ∧
  ch.status ≤ 255

/-- The seven bytes `<HHhB>` of one in-range channel record. -/
def recordBytes (ch : ChannelState) : List ℕ :=
  [(scaledV ch).toNat % 256, (scaledV ch).toNat / 256,
   (scaledC ch).toNat % 256, (scaledC ch).toNat / 256,
   ((scaledT ch % 65536).toNat) % 256, ((scaledT ch % 65536).toNat) / 256,
   ch.status]

/-- The frame `_make_packet` produces when every record packs. -/
def encodedFrame (chs : List ChannelState) : List ℕ :=
  let body := 0xAA :: (chs.map recordBytes).flatten
  body ++ [body.foldl (· ^^^ ·) 0]

/-- A sample whose voltage (100 V = 100000 mV) overflows the unsigned
16-bit voltage field. -/
def overVoltSamples : List ChannelState :=
  ⟨100.0, 0.0, 0.0, 0⟩ :: List.replicate 7 chDefault

/-- Samples whose channel-0 voltage 0.0169 V exposes the store rounding:
`int(0.0169*1000) = 16`, decoded to 0.016 V, stored as `round(0.016, 2)`
= 0.02 V, which is 3.1 mV away from the original. -/
def c2samples : List ChannelState :=
  ⟨169/10000, 5.2, 45.0, 1⟩ :: List.replicate 7 chDefault

/-- The all-disabled mask (every UI toggle off). -/
def maskNone : ℕ → Bool := fun _ => false

/-! ## Shared facts about the parser -/

/-- On a frame passing all three checks, `parse_packet` returns `True` and
rewrites the store. -/
theorem parse_packet_valid (mask : ℕ → Bool) (store : PdmData) (p : List ℕ)
    (now : String) (h1 : p.length = 58) (h2 : p.getD 0 0 = 0xAA)
    (h3 : p.getD 57 0 = (p.take 57).foldl (· ^^^ ·) 0) :
    parse_packet mask store p now = (true, parseUpdate mask store p now) := by
  unfold parse_packet
  rw [if_neg (not_ne_iff.mpr h1), if_neg (not_ne_iff.mpr h2),
    if_neg (not_ne_iff.mpr h3.symm)]

/-- On a frame failing any of the three checks, `parse_packet` returns
`False` and the store it was given, untouched. -/
theorem parse_packet_invalid (mask : ℕ → Bool) (store : PdmData) (p : List ℕ)
    (now : String)
    (h : ¬(p.length = 58 ∧ p.getD 0 0 = 0xAA ∧
           p.getD 57 0 = (p.take 57).foldl (· ^^^ ·) 0)) :
    parse_packet mask store p now = (false, store) := by
  unfold parse_packet
  split_ifs with a b c
  · rfl
  · rfl
  · rfl
  · exact absurd ⟨not_not.mp a, not_not.mp b, (not_not.mp c).symm⟩ h

/-! ## C1: frame validation accepts exactly the valid frames -/

/-- C1.  For every byte string `p`, the consumer's `parse_packet` succeeds
iff `p` has length exactly 58, byte 0 is the sync marker `0xAA`, and byte 57
equals the XOR of bytes `[0, 57)`; any frame failing one of the three checks
(length, sync, checksum — checked in that order) is rejected. -/
theorem frame_validation_iff (mask : ℕ → Bool) (store : PdmData) (p : List ℕ)
    (now : String) (hbytes : ∀ b ∈ p, b < 256) :
    (parse_packet mask store p now).1 = true ↔
      (p.length = 58 ∧ p.getD 0 0 = 0xAA ∧
       p.getD 57 0 = (p.take 57).foldl (· ^^^ ·) 0) := by
  constructor
  · intro hT
    by_contra hn
    rw [parse_packet_invalid mask store p now hn] at hT
    exact Bool.false_ne_true hT
  · intro h
    rw [parse_packet_valid mask store p now h.1 h.2.1 h.2.2]

/-- Witness for C1 at the concrete frame `syncPkt`. -/
theorem frame_validation_iff_witness :
    (parse_packet maskAll initStore syncPkt "t").1 = true :=
  (frame_validation_iff maskAll initStore syncPkt "t" (by decide)).mpr (by decide)

/-! ## C9: rejected frames leave the store untouched -/

/-- C9.  All three validation checks complete before the first store write:
on any frame failing the length, sync or checksum check, `parse_packet`
returns `False` and every field of `pdm_data` is exactly as before. -/
theorem rejected_frame_store_unchanged (mask : ℕ → Bool) (store : PdmData)
    (p : List ℕ) (now : String)
    (h : ¬(p.length = 58 ∧ p.getD 0 0 = 0xAA ∧
           p.getD 57 0 = (p.take 57).foldl (· ^^^ ·) 0)) :
    parse_packet mask store p now = (false, store) :=
  parse_packet_invalid mask store p now h

/-- Witness for C9 at the empty byte string. -/
theorem rejected_frame_store_unchanged_witness :
    parse_packet maskAll initStore [] "t" = (false, initStore) :=
  rejected_frame_store_unchanged maskAll initStore [] "t" (by decide)

/-! ## C4: `parse_packet` is not a pure transform -/

/-- C4 (amended).  `parse_packet` is decode *and* store update in one step:
on every accepted frame it overwrites the shared `pdm_data` with the decoded
snapshot (`parseUpdate`); the store is left unchanged only on rejected
frames.  It is not a pure transform composed with a separate update step. -/
theorem parse_packet_writes_store (mask : ℕ → Bool) (store : PdmData)
    (p : List ℕ) (now : String) :
    (parse_packet mask store p now).2 =
      if (parse_packet mask store p now).1 = true
      then parseUpdate mask store p now else store := by
  unfold parse_packet
  split_ifs <;> simp_all

/-- Counterexample to C4 as stated: on the concrete valid frame `syncPkt`
the call mutates `pdm_data` (the timestamp, among other fields, changes). -/
theorem parse_packet_not_pure :
    (parse_packet maskAll initStore syncPkt "t").1 = true ∧
    (parse_packet maskAll initStore syncPkt "t").2 ≠ initStore := by
  rw [parse_packet_valid maskAll initStore syncPkt "t" (by decide) (by decide)
    (by decide)]
  refine ⟨rfl, fun hc => ?_⟩
  have := congrArg PdmData.timestamp hc
  simp [parseUpdate, initStore] at this

/-! ## C10: the control mask overwrites the whole status byte -/

/-- `getD` through `zipWith`, for indices inside both lists. -/
theorem getD_zipWith {α β γ : Type} (f : α → β → γ) (as : List α) (bs : List β)
    (i : ℕ) (da : α) (db : β) (dc : γ) (ha : i < as.length) (hb : i < bs.length) :
    (List.zipWith f as bs).getD i dc = f (as.getD i da) (bs.getD i db) := by
  rw [List.getD_eq_getElem _ _ (by rw [List.length_zipWith]; omega),
    List.getElem_zipWith, List.getD_eq_getElem _ _ ha, List.getD_eq_getElem _ _ hb]

/-- C10.  A valid 8-entry control mask overwrites every channel's status byte
to exactly `0x01` (entry true) or `0x00` (entry false) — any fault,
over-current or over-temp bit previously present is cleared, even for
channels whose entry is true. -/
theorem control_mask_overwrites_status (st : SimState) (mask : List Bool)
    (i : ℕ) (hm : mask.length = 8) (hc : st.channels_state.length = 8)
    (hi : i < 8) :
    ((apply_channel_controls (some mask) st).channels_state.getD i chDefault).status
      = (if mask.getD i false then 1 else 0) := by
  unfold apply_channel_controls
  dsimp only
  rw [if_pos hm]
  rw [getD_zipWith _ mask st.channels_state i false chDefault chDefault
    (hm ▸ hi) (hc ▸ hi)]

/-- Witness for C10: channel 2 of the freshly initialised simulator carries
status `0b1`; after applying `offMask0` channel 0's status byte is exactly 0. -/
theorem control_mask_overwrites_status_witness :
    ((apply_channel_controls (some offMask0) initSimState).channels_state.getD
      0 chDefault).status = (if offMask0.getD 0 false then 1 else 0) :=
  control_mask_overwrites_status initSimState offMask0 0 rfl rfl (by decide)

/-! ## C8: the fault-scenario current ramp is not monotone -/

/-- C8 evaluation at the failing input: in `CoolingFanFailure`, channel 3's
current at elapsed 2.4 s is 1.6 A but at 2.5 s it is 4.0 A — the current
jumps upward inside the claimed nonincreasing window [2.0, 3.0).  (The first
ramp's comment says "Drop to 50%", yet `8.0 * (1 - (t - 2.0)/0.5)` reaches 0
at 2.5 s, and the second segment restarts at 4.0 A.) -/
theorem fan_ramp_not_monotone :
    ((coolingFanStates 2.4).getD 3 chDefault).current = 1.6 ∧
    ((coolingFanStates 2.5).getD 3 chDefault).current = 4.0 ∧
    ¬ ((4.0 : ℚ) ≤ 1.6) := by
  refine ⟨?_, ?_, by norm_num⟩ <;>
    norm_num [coolingFanStates, coolingFanBase, chDefault]

/-! ## C7: event-label lookup -/

/-- The fold of `get_event_at_time`, for an arbitrary starting label. -/
theorem foldl_event_acc (t : ℚ) :
    ∀ (events : List (ℚ × String)) (acc : String),
      events.foldl (fun current_event e => if t ≥ e.1 then e.2 else current_event)
          acc
        = (((events.filter fun e => decide (e.1 ≤ t)).getLast?).map Prod.snd).getD
            acc := by
  intro events
  induction events with
  | nil => intro acc; simp
  | cons e es ih =>
    intro acc
    rw [List.foldl_cons, ih, List.filter_cons]
    by_cases h : e.1 ≤ t
    · rw [if_pos (show t ≥ e.1 from h), if_pos (by simp [h]), List.getLast?_cons]
      cases hlast : (es.filter fun e => decide (e.1 ≤ t)).getLast? <;> simp [hlast]
    · rw [if_neg (show ¬t ≥ e.1 from h), if_neg (by simp [h])]

/-- C7.  For every scenario event list and every elapsed time `t`,
`get_event_at_time` returns the label of the last event in list order whose
threshold is ≤ `t` (so ties at the same threshold resolve to the one latest
in the list), and the default "Normal operation" label when `t` is before
every threshold. -/
theorem get_event_at_time_spec (events : List (ℚ × String)) (t : ℚ) :
    get_event_at_time events t = lastReachedEventLabel events t :=
  foldl_event_acc t events "Normal operation"

/-! ## C6: scenario completion lifecycle -/

/-- `_apply_channel_controls` never touches the scenario bookkeeping. -/
theorem apply_channel_controls_scenario_info (ctrl : Option (List Bool))
    (st : SimState) :
    (apply_channel_controls ctrl st).scenario_info = st.scenario_info ∧
    (apply_channel_controls ctrl st).active_scenario = st.active_scenario := by
  unfold apply_channel_controls
  cases ctrl with
  | none => exact ⟨rfl, rfl⟩
  | some mask => dsimp only; split_ifs <;> exact ⟨rfl, rfl⟩

/-- `_update_sensors` never touches the scenario bookkeeping. -/
theorem update_sensors_scenario_info (env : Env) (st : SimState) :
    (update_sensors env st).scenario_info = st.scenario_info ∧
    (update_sensors env st).active_scenario = st.active_scenario := by
  unfold update_sensors
  cases h : st.active_scenario <;> simp [h]

/-- The scenario status published by a trigger-free tick. -/
theorem sim_tick_scenario_info (ctrl : Option (List Bool)) (env : Env)
    (now : ℚ) (st : SimState) :
    (sim_tick none ctrl env now st).scenario_info
        = (update_scenario_state now st).scenario_info ∧
    (sim_tick none ctrl env now st).active_scenario
        = (update_scenario_state now st).active_scenario := by
  unfold sim_tick maybe_start_scenario
  constructor
  · rw [(update_sensors_scenario_info _ _).1,
      (apply_channel_controls_scenario_info _ _).1]
  · rw [(update_sensors_scenario_info _ _).2,
      (apply_channel_controls_scenario_info _ _).2]

/-- C6.  For a triggered scenario of duration `D`: the published status is
`"active"` on every trigger-free tick whose elapsed time lies in `[0, D)`;
the first tick observing elapsed ≥ `D` publishes `"complete"` and clears the
active scenario, so `"complete"` is surfaced only once per trigger; and any
following trigger-free tick publishes `"idle"`. -/
theorem scenario_completion_lifecycle (ctrl : Option (List Bool)) (env : Env)
    (st : SimState) (sc : Scenario) (now : ℚ)
    (hact : st.active_scenario = some sc) :
    (0 ≤ now - st.scenario_started_at → now - st.scenario_started_at < sc.duration →
      (sim_tick none ctrl env now st).scenario_info.status = "active") ∧
    (sc.duration ≤ now - st.scenario_started_at →
      (sim_tick none ctrl env now st).scenario_info.status = "complete" ∧
      (sim_tick none ctrl env now st).active_scenario = none) ∧
    (sc.duration ≤ now - st.scenario_started_at →
      ∀ (ctrl2 : Option (List Bool)) (env2 : Env) (now2 : ℚ),
        (sim_tick none ctrl2 env2 now2 (sim_tick none ctrl env now st)
          ).scenario_info.status = "idle") := by
  have hinfo := sim_tick_scenario_info ctrl env now st
  refine ⟨fun _ h2 => ?_, fun h => ⟨?_, ?_⟩, fun h ctrl2 env2 now2 => ?_⟩
  · rw [hinfo.1]
    unfold update_scenario_state
    rw [hact]
    dsimp only
    rw [if_neg (not_le.mpr h2)]
  · rw [hinfo.1]
    unfold update_scenario_state
    rw [hact]
    dsimp only
    rw [if_pos h]
  · rw [hinfo.2]
    unfold update_scenario_state
    rw [hact]
    dsimp only
    rw [if_pos h]
  · have hnone : (sim_tick none ctrl env now st).active_scenario = none := by
      rw [hinfo.2]
      unfold update_scenario_state
      rw [hact]
      dsimp only
      rw [if_pos h]
    rw [(sim_tick_scenario_info ctrl2 env2 now2 _).1]
    unfold update_scenario_state
    rw [hnone]

/-- Witness for C6: with the cooling-fan scenario triggered at 0 s, the tick
at 1 s publishes `"active"`, the tick at 5 s publishes `"complete"`, and the
trigger-free tick after completion publishes `"idle"`. -/
theorem scenario_completion_lifecycle_witness :
    (sim_tick none none env0 1 fanTriggeredState).scenario_info.status
        = "active" ∧
    (sim_tick none none env0 5 fanTriggeredState).scenario_info.status
        = "complete" ∧
    (sim_tick none none env0 (51/10)
        (sim_tick none none env0 5 fanTriggeredState)).scenario_info.status
        = "idle" := by
  refine ⟨?_, ?_, ?_⟩
  · exact (scenario_completion_lifecycle none env0 fanTriggeredState
      coolingFanScenario 1 rfl).1 (by norm_num [fanTriggeredState])
      (by norm_num [fanTriggeredState, coolingFanScenario])
  · exact ((scenario_completion_lifecycle none env0 fanTriggeredState
      coolingFanScenario 5 rfl).2.1
      (by norm_num [fanTriggeredState, coolingFanScenario])).1
  · exact (scenario_completion_lifecycle none env0 fanTriggeredState
      coolingFanScenario 5 rfl).2.2
      (by norm_num [fanTriggeredState, coolingFanScenario]) none env0 (51/10)

/-! ## C5: encode is total only for in-range samples -/

/-- An in-range record packs into its seven bytes. -/
theorem packRecord_eq (ch : ChannelState) (h : inRange ch) :
    packRecord ch = some (recordBytes ch) := by
  obtain ⟨h1, h2, h3, h4, h5, h6, h7⟩ := h
  unfold packRecord packU16 packS16 packU8
  rw [if_pos ⟨h1, h2⟩, if_pos ⟨h3, h4⟩, if_pos ⟨h5, h6⟩, if_pos h7]
  rfl

/-- `mapM packRecord` succeeds on a list of in-range channel states. -/
theorem mapM_packRecord (l : List ChannelState) (h : ∀ ch ∈ l, inRange ch) :
    l.mapM packRecord = some (l.map recordBytes) := by
  induction l with
  | nil => rfl
  | cons ch l ih =>
    rw [List.mapM_cons, packRecord_eq ch (h ch (List.mem_cons_self ch l)),
      ih fun c hc => h c (List.mem_cons_of_mem ch hc)]
    rfl

/-- Each record is 7 bytes, so 8 of them flatten to 56. -/
theorem flatten_recordBytes_length (l : List ChannelState) :
    (l.map recordBytes).flatten.length = 7 * l.length := by
  induction l with
  | nil => rfl
  | cons ch l ih =>
    rw [List.map_cons, List.flatten_cons, List.length_append, ih,
      List.length_cons]
    simp [recordBytes]
    ring

/-- C5 (amended).  `_make_packet` returns a 58-byte frame for every list of
8 channel samples whose truncated scaled forms (`int(v*1000)`,
`int(c*1000)`, `int(t*10)`) fit their fixed-width fields; the scaled values
are truncated toward zero (not rounded), and a sample whose scaled form is
out of range makes `struct.pack` raise a `struct.error` (modelled as `none`)
rather than wrap, clamp or truncate. -/
theorem make_packet_total_in_range (chs : List ChannelState)
    (hlen : chs.length = 8) (h : ∀ ch ∈ chs, inRange ch) :
    make_packet chs = some (encodedFrame chs) ∧
    (encodedFrame chs).length = 58 := by
  constructor
  · unfold make_packet
    rw [mapM_packRecord chs h]
    rfl
  · unfold encodedFrame
    rw [List.length_append, List.length_cons, flatten_recordBytes_length, hlen,
      List.length_singleton]

/-- Witness for C5 at the simulator's initial channel states. -/
theorem make_packet_total_in_range_witness :
    make_packet initChannels = some (encodedFrame initChannels) ∧
    (encodedFrame initChannels).length = 58 :=
  make_packet_total_in_range initChannels rfl
    (by
      intro ch hch
      simp only [initChannels, List.mem_cons, List.not_mem_nil, or_false] at hch
      rcases hch with rfl | rfl | rfl | rfl | rfl | rfl | rfl | rfl <;>
        norm_num [inRange, scaledV, scaledC, scaledT, pytrunc])

/-- Counterexample to C5 as stated: on 8 samples whose first voltage is
100 V (100000 mV > 65535), `_make_packet` produces no frame at all — the
pack raises instead of wrapping or clamping. -/
theorem make_packet_overflow_raises :
    overVoltSamples.length = 8 ∧ make_packet overVoltSamples = none := by
  constructor
  · rfl
  · unfold make_packet overVoltSamples
    rw [List.mapM_cons]
    have : packRecord ⟨100.0, 0.0, 0.0, 0⟩ = none := by
      unfold packRecord packU16
      rw [if_neg (by norm_num [scaledV, pytrunc])]
      rfl
    rw [this]
    rfl

/-! ## C2: round-trip through encode and parse -/

/-- Truncation toward zero is less than 1 away. -/
theorem pytrunc_close (q : ℚ) : |(pytrunc q : ℚ) - q| < 1 := by
  unfold pytrunc
  split_ifs with h
  · rw [abs_sub_lt_iff]
    constructor
    · have := Int.floor_le q
      linarith
    · have := Int.lt_floor_add_one q
      linarith
  · push_cast
    rw [abs_sub_lt_iff]
    constructor
    · have := Int.lt_floor_add_one (-q)
      linarith
    · have := Int.floor_le (-q)
      linarith

/-- Round half to even is at most 1/2 away. -/
theorem rhe_close (q : ℚ) : |(rhe q : ℚ) - q| ≤ 1 / 2 := by
  have hfl := Int.floor_le q
  have hfu := Int.lt_floor_add_one q
  unfold rhe
  split_ifs with h1 h2 h3 <;> rw [abs_le] <;> push_cast <;> constructor <;>
    linarith

/-- `round(x, k)` moves `x` by at most half a unit in the last place. -/
theorem pyround_close (q : ℚ) (k : ℕ) : |pyround q k - q| ≤ 1 / 2 / 10 ^ k := by
  unfold pyround
  have h10 : (0 : ℚ) < 10 ^ k := by positivity
  have h := rhe_close (q * 10 ^ k)
  rw [show (rhe (q * 10 ^ k) : ℚ) / 10 ^ k - q
      = ((rhe (q * 10 ^ k) : ℚ) - q * 10 ^ k) / 10 ^ k by field_simp; try ring,
    abs_div, abs_of_pos h10]
  gcongr

/-- `rhe` is the identity on integers. -/
theorem rhe_intCast (k : ℤ) : rhe (k : ℚ) = k := by
  unfold rhe
  rw [Int.floor_intCast]
  rw [if_pos (by norm_num)]

/-- `round(x, 1)` is the identity on exact tenths (decoded decidegrees). -/
theorem pyround_tenth (k : ℤ) : pyround ((k : ℚ) / 10) 1 = (k : ℚ) / 10 := by
  unfold pyround
  rw [show (k : ℚ) / 10 * 10 ^ 1 = (k : ℚ) by ring, rhe_intCast]
  ring

/-- Scaling, truncating and unscaling lands within one resolution step. -/
theorem trunc_scale_close (v s : ℚ) (hs : 0 < s) :
    |(pytrunc (v * s) : ℚ) / s - v| < 1 / s := by
  have h := pytrunc_close (v * s)
  rw [show (pytrunc (v * s) : ℚ) / s - v = ((pytrunc (v * s) : ℚ) - v * s) / s
      by field_simp; try ring, abs_div, abs_of_pos hs]
  gcongr

/-- Encoding a value to truncated thousandths and storing the decoded value
rounded to two decimals moves it by less than 6 thousandths. -/
theorem store_roundtrip_close (v : ℚ) :
    |pyround ((pytrunc (v * 1000) : ℚ) / 1000) 2 - v| < 6 / 1000 := by
  have h1 := pyround_close ((pytrunc (v * 1000) : ℚ) / 1000) 2
  have h2 := trunc_scale_close v 1000 (by norm_num)
  have h3 := abs_sub_le (pyround ((pytrunc (v * 1000) : ℚ) / 1000) 2)
    ((pytrunc (v * 1000) : ℚ) / 1000) v
  norm_num at h1 h2 ⊢
  linarith

/-- Temperature round-trip: truncated decidegrees, decoded and stored with
one-decimal rounding (the identity there), stay within 0.1 °C. -/
theorem temp_roundtrip_close (t : ℚ) :
    |pyround ((pytrunc (t * 10) : ℚ) / 10) 1 - t| < 1 / 10 := by
  rw [pyround_tenth]
  exact trunc_scale_close t 10 (by norm_num)

/-- In-range channel lists encode to `encodedFrame`. -/
theorem make_packet_eq_encodedFrame (chs : List ChannelState)
    (h : ∀ ch ∈ chs, inRange ch) :
    make_packet chs = some (encodedFrame chs) := by
  unfold make_packet
  rw [mapM_packRecord chs h]
  rfl

/-- The body (sync byte plus eight records) is 57 bytes. -/
theorem encodedFrame_body_length (chs : List ChannelState)
    (hlen : chs.length = 8) :
    (0xAA :: (chs.map recordBytes).flatten).length = 57 := by
  rw [List.length_cons, flatten_recordBytes_length, hlen]

/-- The full frame is 58 bytes. -/
theorem encodedFrame_length (chs : List ChannelState) (hlen : chs.length = 8) :
    (encodedFrame chs).length = 58 := by
  unfold encodedFrame
  rw [List.length_append, encodedFrame_body_length chs hlen,
    List.length_singleton]

/-- Byte 0 of the frame is the sync marker. -/
theorem encodedFrame_getD_zero (chs : List ChannelState) :
    (encodedFrame chs).getD 0 0 = 0xAA := rfl

/-- Byte 57 of the frame is the XOR of the 57 bytes before it. -/
theorem encodedFrame_checksum (chs : List ChannelState) (hlen : chs.length = 8) :
    (encodedFrame chs).getD 57 0 = ((encodedFrame chs).take 57).foldl (· ^^^ ·) 0 := by
  unfold encodedFrame
  rw [List.take_left' (encodedFrame_body_length chs hlen),
    List.getD_append_right _ _ _ _ (le_of_eq (encodedFrame_body_length chs hlen)),
    encodedFrame_body_length chs hlen]
  rfl

/-- Indexing into a flatten of uniformly 7-byte records. -/
theorem flatten_getD_uniform :
    ∀ (ls : List (List ℕ)), (∀ l ∈ ls, l.length = 7) →
      ∀ i j, i < ls.length → j < 7 →
        ls.flatten.getD (7 * i + j) 0 = (ls.getD i []).getD j 0 := by
  intro ls
  induction ls with
  | nil => intro _ i _ hi _; exact absurd hi (Nat.not_lt_zero i)
  | cons l ls ih =>
    intro h7 i j hi hj
    cases i with
    | zero =>
      rw [List.flatten_cons, Nat.mul_zero, Nat.zero_add,
        List.getD_append _ _ _ _ (by rw [h7 l (List.mem_cons_self l ls)]; exact hj)]
      rfl
    | succ i =>
      rw [List.flatten_cons,
        List.getD_append_right _ _ _ _
          (by rw [h7 l (List.mem_cons_self l ls)]; omega),
        h7 l (List.mem_cons_self l ls),
        show 7 * (i + 1) + j - 7 = 7 * i + j by ring_nf; omega]
      exact ih (fun l hl => h7 l (List.mem_cons_of_mem _ hl)) i j
        (Nat.lt_of_succ_lt_succ hi) hj

/-- Byte `1 + (7*i + j)` of the frame is byte `j` of channel `i`'s record. -/
theorem encodedFrame_getD (chs : List ChannelState) (hlen : chs.length = 8)
    (i j : ℕ) (hi : i < 8) (hj : j < 7) :
    (encodedFrame chs).getD (1 + (7 * i + j)) 0
      = (recordBytes (chs.getD i chDefault)).getD j 0 := by
  unfold encodedFrame
  have hbody : 1 + (7 * i + j) < (0xAA :: (chs.map recordBytes).flatten).length := by
    rw [encodedFrame_body_length chs hlen]; omega
  rw [List.getD_append _ _ _ _ hbody,
    show 1 + (7 * i + j) = (7 * i + j) + 1 by ring, List.getD_cons_succ,
    flatten_getD_uniform (chs.map recordBytes)
      (by intro l hl; obtain ⟨ch, _, rfl⟩ := List.mem_map.mp hl; rfl)
      i j (by rw [List.length_map, hlen]; exact hi) hj]
  have hmap : (List.map recordBytes chs).getD i [] = recordBytes (chs.getD i chDefault) := by
    rw [List.getD_eq_getElem (List.map recordBytes chs) [] (by rw [List.length_map]; omega)]
    rw [List.getElem_map]
    rw [List.getD_eq_getElem chs chDefault (by omega)]
  rw [hmap]

/-- The wire voltage field of channel `i` decodes to its scaled voltage. -/
theorem unpack_voltage (chs : List ChannelState) (hlen : chs.length = 8)
    (i : ℕ) (hi : i < 8) :
    unpackU16 (encodedFrame chs) (1 + 7 * i)
      = (scaledV (chs.getD i chDefault)).toNat := by
  unfold unpackU16
  rw [show 1 + 7 * i = 1 + (7 * i + 0) by ring]
  rw [show 1 + (7 * i + 0) + 1 = 1 + (7 * i + 1) by ring]
  rw [encodedFrame_getD chs hlen i 0 hi (by norm_num),
    encodedFrame_getD chs hlen i 1 hi (by norm_num)]
  unfold recordBytes
  simp only [List.getD_cons_zero, List.getD_cons_succ]
  exact Nat.mod_add_div _ 256

/-- The wire current field of channel `i` decodes to its scaled current. -/
theorem unpack_current (chs : List ChannelState) (hlen : chs.length = 8)
    (i : ℕ) (hi : i < 8) :
    unpackU16 (encodedFrame chs) (3 + 7 * i)
      = (scaledC (chs.getD i chDefault)).toNat := by
  unfold unpackU16
  rw [show 3 + 7 * i = 1 + (7 * i + 2) by ring]
  rw [show 1 + (7 * i + 2) + 1 = 1 + (7 * i + 3) by ring]
  rw [encodedFrame_getD chs hlen i 2 hi (by norm_num),
    encodedFrame_getD chs hlen i 3 hi (by norm_num)]
  unfold recordBytes
  simp only [List.getD_cons_zero, List.getD_cons_succ]
  exact Nat.mod_add_div _ 256

/-- The signed wire temperature field of channel `i` decodes to its scaled
temperature, for in-range values. -/
theorem unpack_temp (chs : List ChannelState) (hlen : chs.length = 8)
    (i : ℕ) (hi : i < 8) (h5 : -32768 ≤ scaledT (chs.getD i chDefault))
    (h6 : scaledT (chs.getD i chDefault) ≤ 32767) :
    unpackS16 (encodedFrame chs) (5 + 7 * i) = scaledT (chs.getD i chDefault) := by
  have hu : unpackU16 (encodedFrame chs) (5 + 7 * i)
      = ((scaledT (chs.getD i chDefault)) % 65536).toNat := by
    unfold unpackU16
    rw [show 5 + 7 * i = 1 + (7 * i + 4) by ring]
    rw [show 1 + (7 * i + 4) + 1 = 1 + (7 * i + 5) by ring]
    rw [encodedFrame_getD chs hlen i 4 hi (by norm_num),
      encodedFrame_getD chs hlen i 5 hi (by norm_num)]
    unfold recordBytes
    simp only [List.getD_cons_zero, List.getD_cons_succ]
    exact Nat.mod_add_div _ 256
  unfold unpackS16
  rw [hu]
  split_ifs with hlt <;> omega

/-- The wire status byte of channel `i` is its status byte, unchanged. -/
theorem unpack_status (chs : List ChannelState) (hlen : chs.length = 8)
    (i : ℕ) (hi : i < 8) :
    decodedStatus (encodedFrame chs) i = (chs.getD i chDefault).status := by
  unfold decodedStatus
  rw [show 7 + 7 * i = 1 + (7 * i + 6) by ring,
    encodedFrame_getD chs hlen i 6 hi (by norm_num)]
  rfl

/-- Channel `i` of the rewritten store is the parse of record `i`. -/
theorem parseUpdate_channel (mask : ℕ → Bool) (store : PdmData) (p : List ℕ)
    (now : String) (i : ℕ) (hi : i < 8) :
    (parseUpdate mask store p now).channels.getD i scDefault
      = parsedChannel mask p i (store.channels.getD i scDefault) := by
  unfold parseUpdate
  dsimp only
  rw [List.getD_eq_getElem _ _ (by rw [List.length_map, List.length_range]; exact hi)]
  rw [List.getElem_map, List.getElem_range]

/-- C2 (amended).  Decoding the frame produced by the encoder, with all
channels enabled, accepts the frame and reproduces each channel's raw status
byte bit-for-bit (the store keeps its four defined flag bits), its
temperature to within 0.1 °C, and — because `parse_packet` stores voltage
and current rounded to two decimals on top of the 1 mV / 1 mA encoding
truncation — its voltage and current to within 6 mV / 6 mA (not 1 mV / 1 mA
as claimed). -/
theorem decode_encode_roundtrip (chs : List ChannelState) (store : PdmData)
    (now : String) (hlen : chs.length = 8) (h : ∀ ch ∈ chs, inRange ch) :
    make_packet chs = some (encodedFrame chs) ∧
    (parse_packet maskAll store (encodedFrame chs) now).1 = true ∧
    ∀ i, i < 8 →
      |((parse_packet maskAll store (encodedFrame chs) now).2.channels.getD i
          scDefault).voltage - (chs.getD i chDefault).voltage| < 6 / 1000 ∧
      |((parse_packet maskAll store (encodedFrame chs) now).2.channels.getD i
          scDefault).current - (chs.getD i chDefault).current| < 6 / 1000 ∧
      |((parse_packet maskAll store (encodedFrame chs) now).2.channels.getD i
          scDefault).temperature - (chs.getD i chDefault).temp| < 1 / 10 ∧
      decodedStatus (encodedFrame chs) i = (chs.getD i chDefault).status ∧
      ((parse_packet maskAll store (encodedFrame chs) now).2.channels.getD i
          scDefault).status.on_flag
        = decide ((chs.getD i chDefault).status &&& 1 ≠ 0) ∧
      ((parse_packet maskAll store (encodedFrame chs) now).2.channels.getD i
          scDefault).status.fault
        = decide ((chs.getD i chDefault).status &&& 2 ≠ 0) ∧
      ((parse_packet maskAll store (encodedFrame chs) now).2.channels.getD i
          scDefault).status.over_current
        = decide ((chs.getD i chDefault).status &&& 4 ≠ 0) ∧
      ((parse_packet maskAll store (encodedFrame chs) now).2.channels.getD i
          scDefault).status.over_temp
        = decide ((chs.getD i chDefault).status &&& 8 ≠ 0) := by
  have hvalid := parse_packet_valid maskAll store (encodedFrame chs) now
    (encodedFrame_length chs hlen) (encodedFrame_getD_zero chs)
    (encodedFrame_checksum chs hlen)
  refine ⟨make_packet_eq_encodedFrame chs h, by rw [hvalid], ?_⟩
  intro i hi
  have hil : i < chs.length := by omega
  have hch : inRange (chs.getD i chDefault) := by
    rw [List.getD_eq_getElem chs chDefault hil]
    exact h _ (List.getElem_mem hil)
  obtain ⟨h1, h2, h3, h4, h5, h6, h7⟩ := hch
  have hdec : (parse_packet maskAll store (encodedFrame chs) now).2.channels.getD
      i scDefault
      = parsedChannel maskAll (encodedFrame chs) i (store.channels.getD i scDefault) := by
    rw [hvalid]
    exact parseUpdate_channel maskAll store (encodedFrame chs) now i hi
  rw [hdec]
  unfold parsedChannel maskAll
  dsimp only
  have hV : decodedVoltage (encodedFrame chs) i
      = ((scaledV (chs.getD i chDefault) : ℤ) : ℚ) / 1000 := by
    unfold decodedVoltage
    rw [unpack_voltage chs hlen i hi]
    congr 1
    exact_mod_cast congrArg (fun z : ℤ => (z : ℚ)) (Int.toNat_of_nonneg h1)
  have hC : decodedCurrent (encodedFrame chs) i
      = ((scaledC (chs.getD i chDefault) : ℤ) : ℚ) / 1000 := by
    unfold decodedCurrent
    rw [unpack_current chs hlen i hi]
    congr 1
    exact_mod_cast congrArg (fun z : ℤ => (z : ℚ)) (Int.toNat_of_nonneg h3)
  have hT : decodedTemp (encodedFrame chs) i
      = ((scaledT (chs.getD i chDefault) : ℤ) : ℚ) / 10 := by
    unfold decodedTemp
    rw [unpack_temp chs hlen i hi h5 h6]
  refine ⟨?_, ?_, ?_, unpack_status chs hlen i hi, ?_, ?_, ?_, ?_⟩
  · rw [hV]
    exact store_roundtrip_close (chs.getD i chDefault).voltage
  · rw [if_pos rfl, hC]
    exact store_roundtrip_close (chs.getD i chDefault).current
  · rw [hT]
    exact temp_roundtrip_close (chs.getD i chDefault).temp
  · rw [if_pos rfl, unpack_status chs hlen i hi]
  · rw [unpack_status chs hlen i hi]
  · rw [unpack_status chs hlen i hi]
  · rw [unpack_status chs hlen i hi]

/-- Witness for C2 at the simulator's initial channel states. -/
theorem decode_encode_roundtrip_witness :
    make_packet initChannels = some (encodedFrame initChannels) ∧
    (parse_packet maskAll initStore (encodedFrame initChannels) "t").1 = true ∧
    |((parse_packet maskAll initStore (encodedFrame initChannels)
        "t").2.channels.getD 0 scDefault).voltage
      - (initChannels.getD 0 chDefault).voltage| < 6 / 1000 := by
  have hwf : ∀ ch ∈ initChannels, inRange ch := by
    intro ch hch
    simp only [initChannels, List.mem_cons, List.not_mem_nil, or_false] at hch
    rcases hch with rfl | rfl | rfl | rfl | rfl | rfl | rfl | rfl <;>
      norm_num [inRange, scaledV, scaledC, scaledT, pytrunc]
  have h := decode_encode_roundtrip initChannels initStore "t" rfl hwf
  exact ⟨h.1, h.2.1, (h.2.2 0 (by norm_num)).1⟩

/-- Counterexample to C2 as stated: encoding channel-0 voltage 0.0169 V and
decoding it leaves 0.02 V in the store — 3.1 mV from the original, beyond
the claimed 1 mV resolution. -/
theorem roundtrip_tolerance_counterexample :
    make_packet c2samples = some (encodedFrame c2samples) ∧
    (parse_packet maskAll initStore (encodedFrame c2samples) "t").1 = true ∧
    ¬ (|((parse_packet maskAll initStore (encodedFrame c2samples)
          "t").2.channels.getD 0 scDefault).voltage
        - (c2samples.getD 0 chDefault).voltage| ≤ 1 / 1000) := by
  have hwf : ∀ ch ∈ c2samples, inRange ch := by
    intro ch hch
    simp only [c2samples, List.mem_cons, List.mem_replicate] at hch
    rcases hch with rfl | ⟨-, rfl⟩ <;>
      norm_num [inRange, scaledV, scaledC, scaledT, pytrunc, chDefault]
  have hvalid := parse_packet_valid maskAll initStore (encodedFrame c2samples)
    "t" (encodedFrame_length c2samples rfl) (encodedFrame_getD_zero c2samples)
    (encodedFrame_checksum c2samples rfl)
  refine ⟨make_packet_eq_encodedFrame c2samples hwf, by rw [hvalid], ?_⟩
  have hdec : (parse_packet maskAll initStore (encodedFrame c2samples)
      "t").2.channels.getD 0 scDefault
      = parsedChannel maskAll (encodedFrame c2samples) 0
          (initStore.channels.getD 0 scDefault) := by
    rw [hvalid]
    exact parseUpdate_channel maskAll initStore (encodedFrame c2samples) "t" 0
      (by norm_num)
  rw [hdec]
  have hs16 : scaledV (c2samples.getD 0 chDefault) = 16 := by
    norm_num [c2samples, scaledV, pytrunc]
  have h1 : (0 : ℤ) ≤ scaledV (c2samples.getD 0 chDefault) := by
    rw [hs16]; norm_num
  have hV : decodedVoltage (encodedFrame c2samples) 0 = (16 : ℚ) / 1000 := by
    unfold decodedVoltage
    rw [unpack_voltage c2samples rfl 0 (by norm_num), hs16,
      show Int.toNat 16 = 16 from rfl]
    norm_num
  unfold parsedChannel
  dsimp only
  rw [hV]
  have hround : pyround ((16 : ℚ) / 1000) 2 = 2 / 100 := by
    norm_num [pyround, rhe]
  rw [hround]
  have hch0 : (c2samples.getD 0 chDefault).voltage = 169 / 10000 := by
    norm_num [c2samples]
  rw [hch0]
  rw [show |(2 / 100 : ℚ) - 169 / 10000| = 31 / 10000 by
    rw [abs_of_pos] <;> norm_num]
  norm_num

/-! ## C3: enable-mask enforcement -/

/-- `getD` after `set` at the same (in-bounds) index. -/
theorem getD_set_self {α : Type} (l : List α) (m : ℕ) (a d : α)
    (h : m < l.length) : (l.set m a).getD m d = a := by
  rw [List.getD_eq_getD_get?, List.get?_set_eq_of_lt a h, Option.getD_some]

/-- `getD` after `set` at a different index. -/
theorem getD_set_ne {α : Type} (l : List α) (m i : ℕ) (a d : α) (h : m ≠ i) :
    (l.set m a).getD i d = l.getD i d := by
  rw [List.getD_eq_getD_get?, List.getD_eq_getD_get?, List.get?_set_ne a l h]

/-- One sensor iteration preserves the list length. -/
theorem sensorStep_length (env : Env) (v : ℚ) (chs : List ChannelState)
    (j : ℕ) : (sensorStep env v chs j).length = chs.length := by
  unfold sensorStep
  dsimp only
  split_ifs <;> simp [List.length_set]

/-- Sensor iteration `j` only writes channels `j` and 3. -/
theorem sensorStep_getD_ne (env : Env) (v : ℚ) (chs : List ChannelState)
    (j i : ℕ) (hji : j ≠ i) (h33 : j = 3 → i ≠ 3) :
    (sensorStep env v chs j).getD i chDefault = chs.getD i chDefault := by
  unfold sensorStep
  dsimp only
  by_cases hj3 : j = 3
  · rw [if_pos hj3]
    rw [getD_set_ne _ 3 i _ _ (Ne.symm (h33 hj3)), getD_set_ne _ j i _ _ hji]
  · rw [if_neg hj3]
    rw [getD_set_ne _ j i _ _ hji]

/-- A channel whose status byte was forced to 0 comes out of its own sensor
iteration with zero current (the `else` branch of the `is_on` test), and —
off the fan channel — with its status byte still 0. -/
theorem sensorStep_getD_self (env : Env) (v : ℚ) (chs : List ChannelState)
    (i : ℕ) (hlen : i < chs.length) (hi3 : i ≠ 3)
    (hst : (chs.getD i chDefault).status = 0) :
    ((sensorStep env v chs i).getD i chDefault).current = 0 ∧
    ((sensorStep env v chs i).getD i chDefault).status = 0 := by
  unfold sensorStep
  dsimp only
  rw [if_neg hi3]
  rw [getD_set_self _ i _ _ hlen]
  rw [hst]
  norm_num

/-- The fan channel, status forced to 0, still gets zero current from its
own iteration (the auto-toggle rewrites only the status byte). -/
theorem sensorStep3_current (env : Env) (v : ℚ) (chs : List ChannelState)
    (hlen : 3 < chs.length) (hst : (chs.getD 3 chDefault).status = 0) :
    ((sensorStep env v chs 3).getD 3 chDefault).current = 0 := by
  unfold sensorStep
  dsimp only
  rw [if_pos rfl]
  rw [getD_set_self _ 3 _ _ (by rw [List.length_set]; exact hlen)]
  rw [hst]
  norm_num
  split_ifs <;> norm_num

/-- Folding sensor iterations over indices that avoid both `i` and (unless
`i` is safe from it) the fan toggle leaves channel `i` unread. -/
theorem foldl_sensorStep_ne (env : Env) (v : ℚ) :
    ∀ (J : List ℕ) (chs : List ChannelState) (i : ℕ),
      (∀ j ∈ J, j ≠ i ∧ (j = 3 → i ≠ 3)) →
      ((J.foldl (sensorStep env v) chs).getD i chDefault)
        = chs.getD i chDefault := by
  intro J
  induction J with
  | nil => intro chs i _; rfl
  | cons j J ih =>
    intro chs i hJ
    rw [List.foldl_cons,
      ih (sensorStep env v chs j) i
        (fun k hk => hJ k (List.mem_cons_of_mem j hk)),
      sensorStep_getD_ne env v chs j i (hJ j (List.mem_cons_self j J)).1
        (hJ j (List.mem_cons_self j J)).2]

/-- Folding sensor iterations preserves the list length. -/
theorem foldl_sensorStep_length (env : Env) (v : ℚ) :
    ∀ (J : List ℕ) (chs : List ChannelState),
      (J.foldl (sensorStep env v) chs).length = chs.length := by
  intro J
  induction J with
  | nil => intro chs; rfl
  | cons j J ih =>
    intro chs
    rw [List.foldl_cons, ih (sensorStep env v chs j), sensorStep_length]

/-- With no active scenario, `_update_scenario_state` only rewrites the
published info. -/
theorem update_scenario_state_none (now : ℚ) (st : SimState)
    (h : st.active_scenario = none) :
    (update_scenario_state now st).channels_state = st.channels_state ∧
    (update_scenario_state now st).active_scenario = none := by
  unfold update_scenario_state
  rw [h]
  exact ⟨rfl, rfl⟩

/-- A disabled channel, except the fan, leaves the whole ambient update with
zero current and a zero status byte. -/
theorem fold_disabled_generic (env : Env) (v : ℚ) (chs : List ChannelState)
    (i : ℕ) (A B : List ℕ) (hsplit : List.range 8 = A ++ i :: B)
    (hA : ∀ j ∈ A, j ≠ i ∧ (j = 3 → i ≠ 3))
    (hB : ∀ j ∈ B, j ≠ i ∧ (j = 3 → i ≠ 3))
    (hlen : chs.length = 8) (hi : i < 8) (hi3 : i ≠ 3)
    (hst : (chs.getD i chDefault).status = 0) :
    (((List.range 8).foldl (sensorStep env v) chs).getD i chDefault).current = 0 ∧
    (((List.range 8).foldl (sensorStep env v) chs).getD i chDefault).status = 0 := by
  rw [hsplit, List.foldl_append, List.foldl_cons]
  rw [foldl_sensorStep_ne env v B _ i hB]
  have hAch : (A.foldl (sensorStep env v) chs).getD i chDefault
      = chs.getD i chDefault := foldl_sensorStep_ne env v A chs i hA
  have hAlen : i < (A.foldl (sensorStep env v) chs).length := by
    rw [foldl_sensorStep_length, hlen]
    exact hi
  exact sensorStep_getD_self env v _ i hAlen hi3 (by rw [hAch]; exact hst)

/-- The disabled fan channel leaves the ambient update with zero current
(its status byte may be re-set by the auto-toggle). -/
theorem fold_disabled_fan (env : Env) (v : ℚ) (chs : List ChannelState)
    (hlen : chs.length = 8) (hst : (chs.getD 3 chDefault).status = 0) :
    (((List.range 8).foldl (sensorStep env v) chs).getD 3 chDefault).current = 0 := by
  rw [show List.range 8 = [0, 1, 2] ++ 3 :: [4, 5, 6, 7] from rfl,
    List.foldl_append, List.foldl_cons]
  rw [foldl_sensorStep_ne env v [4, 5, 6, 7] _ 3 (by decide)]
  refine sensorStep3_current env v _ ?_ ?_
  · rw [foldl_sensorStep_length, hlen]
    norm_num
  · rw [foldl_sensorStep_ne env v [0, 1, 2] chs 3 (by decide)]
    exact hst

/-- C3 (amended).  Consumer side: in every accepted frame, a channel whose
enable-mask entry is false is written to the store with current exactly 0.0
and its on-flag false.  Producer side (ambient mode, no active scenario): a
disabled channel is carried into the encoded tick with current exactly 0.0,
and — except for the fan channel 3, whose status byte the auto-toggle may
rewrite — with status byte 0 (on-flag clear).  (During an active scenario
the producer forces only the status bit; the scenario's current is encoded
unchanged — see the counterexample.) -/
theorem enable_mask_enforcement :
    (∀ (mask : ℕ → Bool) (store : PdmData) (p : List ℕ) (now : String) (i : ℕ),
      i < 8 → mask i = false → (parse_packet mask store p now).1 = true →
      ((parse_packet mask store p now).2.channels.getD i scDefault).current = 0 ∧
      ((parse_packet mask store p now).2.channels.getD i
        scDefault).status.on_flag = false) ∧
    (∀ (cmask : List Bool) (env : Env) (now : ℚ) (st : SimState) (i : ℕ),
      st.active_scenario = none → cmask.length = 8 →
      st.channels_state.length = 8 → i < 8 → cmask.getD i false = false →
      ((sim_tick none (some cmask) env now st).channels_state.getD i
        chDefault).current = 0 ∧
      (i ≠ 3 → ((sim_tick none (some cmask) env now st).channels_state.getD i
        chDefault).status = 0)) := by
  constructor
  · intro mask store p now i hi hmask hT
    by_cases hv : (p.length = 58 ∧ p.getD 0 0 = 0xAA ∧
        p.getD 57 0 = (p.take 57).foldl (· ^^^ ·) 0)
    · rw [parse_packet_valid mask store p now hv.1 hv.2.1 hv.2.2]
      rw [parseUpdate_channel mask store p now i hi]
      unfold parsedChannel
      dsimp only
      rw [hmask]
      norm_num [pyround, rhe]
    · rw [parse_packet_invalid mask store p now hv] at hT
      exact absurd hT (by norm_num)
  · intro cmask env now st i hact hm hc hi hmaski
    have h2 := update_scenario_state_none now st hact
    have h3act : (apply_channel_controls (some cmask)
        (update_scenario_state now st)).active_scenario = none := by
      rw [(apply_channel_controls_scenario_info _ _).2, h2.2]
    have h3chan : (apply_channel_controls (some cmask)
        (update_scenario_state now st)).channels_state
        = List.zipWith
            (fun on_entry ch => { ch with status := (if on_entry then 1 else 0) })
            cmask (update_scenario_state now st).channels_state := by
      unfold apply_channel_controls
      dsimp only
      rw [if_pos hm]
    have hzlen : (List.zipWith
        (fun on_entry ch => { ch with status := (if on_entry then 1 else 0) })
        cmask (update_scenario_state now st).channels_state).length = 8 := by
      rw [List.length_zipWith, hm, h2.1, hc]
      simp
    have hzstatus : ((List.zipWith
        (fun on_entry ch => { ch with status := (if on_entry then 1 else 0) })
        cmask (update_scenario_state now st).channels_state).getD i
          chDefault).status = 0 := by
      rw [getD_zipWith _ cmask _ i false chDefault chDefault
        (by rw [hm]; exact hi) (by rw [h2.1, hc]; exact hi)]
      dsimp only
      rw [hmaski]
      norm_num
    unfold sim_tick maybe_start_scenario
    dsimp only
    unfold update_sensors
    rw [h3act]
    dsimp only
    rw [h3chan]
    interval_cases i
    · exact ⟨(fold_disabled_generic env _ _ 0 [] [1, 2, 3, 4, 5, 6, 7] rfl
        (by decide) (by decide) hzlen (by norm_num) (by norm_num) hzstatus).1,
        fun _ => (fold_disabled_generic env _ _ 0 [] [1, 2, 3, 4, 5, 6, 7] rfl
        (by decide) (by decide) hzlen (by norm_num) (by norm_num) hzstatus).2⟩
    · exact ⟨(fold_disabled_generic env _ _ 1 [0] [2, 3, 4, 5, 6, 7] rfl
        (by decide) (by decide) hzlen (by norm_num) (by norm_num) hzstatus).1,
        fun _ => (fold_disabled_generic env _ _ 1 [0] [2, 3, 4, 5, 6, 7] rfl
        (by decide) (by decide) hzlen (by norm_num) (by norm_num) hzstatus).2⟩
    · exact ⟨(fold_disabled_generic env _ _ 2 [0, 1] [3, 4, 5, 6, 7] rfl
        (by decide) (by decide) hzlen (by norm_num) (by norm_num) hzstatus).1,
        fun _ => (fold_disabled_generic env _ _ 2 [0, 1] [3, 4, 5, 6, 7] rfl
        (by decide) (by decide) hzlen (by norm_num) (by norm_num) hzstatus).2⟩
    · exact ⟨fold_disabled_fan env _ _ hzlen hzstatus,
        fun h3 => absurd rfl h3⟩
    · exact ⟨(fold_disabled_generic env _ _ 4 [0, 1, 2, 3] [5, 6, 7] rfl
        (by decide) (by decide) hzlen (by norm_num) (by norm_num) hzstatus).1,
        fun _ => (fold_disabled_generic env _ _ 4 [0, 1, 2, 3] [5, 6, 7] rfl
        (by decide) (by decide) hzlen (by norm_num) (by norm_num) hzstatus).2⟩
    · exact ⟨(fold_disabled_generic env _ _ 5 [0, 1, 2, 3, 4] [6, 7] rfl
        (by decide) (by decide) hzlen (by norm_num) (by norm_num) hzstatus).1,
        fun _ => (fold_disabled_generic env _ _ 5 [0, 1, 2, 3, 4] [6, 7] rfl
        (by decide) (by decide) hzlen (by norm_num) (by norm_num) hzstatus).2⟩
    · exact ⟨(fold_disabled_generic env _ _ 6 [0, 1, 2, 3, 4, 5] [7] rfl
        (by decide) (by decide) hzlen (by norm_num) (by norm_num) hzstatus).1,
        fun _ => (fold_disabled_generic env _ _ 6 [0, 1, 2, 3, 4, 5] [7] rfl
        (by decide) (by decide) hzlen (by norm_num) (by norm_num) hzstatus).2⟩
    · exact ⟨(fold_disabled_generic env _ _ 7 [0, 1, 2, 3, 4, 5, 6] [] rfl
        (by decide) (by decide) hzlen (by norm_num) (by norm_num) hzstatus).1,
        fun _ => (fold_disabled_generic env _ _ 7 [0, 1, 2, 3, 4, 5, 6] [] rfl
        (by decide) (by decide) hzlen (by norm_num) (by norm_num) hzstatus).2⟩

/-- Counterexample to C3 as stated: one second into the cooling-fan
scenario, with channel 0 disabled by the control mask, the producer's tick
carries channel 0 with status byte 0 (off) but current 5.2 A — the scenario
current is encoded unchanged, not forced to 0.0. -/
theorem scenario_mask_counterexample :
    ((sim_tick none (some offMask0) env0 1
        fanTriggeredState).channels_state.getD 0 chDefault).status = 0 ∧
    ((sim_tick none (some offMask0) env0 1
        fanTriggeredState).channels_state.getD 0 chDefault).current = 5.2 ∧
    ¬ ((5.2 : ℚ) = 0) := by
  unfold sim_tick maybe_start_scenario update_scenario_state fanTriggeredState
  dsimp only
  rw [if_neg (by norm_num [coolingFanScenario])]
  unfold apply_channel_controls
  dsimp only
  rw [if_pos (by norm_num [offMask0])]
  unfold update_sensors
  dsimp only
  norm_num [coolingFanScenario, coolingFanStates, coolingFanBase, offMask0,
    chDefault]

/-- Witness for C3: a rejected... rather, an accepted all-zero frame parsed
with every channel disabled stores zero current and a clear on-flag for
channel 0, and a trigger-free ambient tick with channel 0 disabled carries
it with zero current and status byte 0. -/
theorem enable_mask_enforcement_witness :
    ((parse_packet maskNone initStore syncPkt
        "t").2.channels.getD 0 scDefault).current = 0 ∧
    ((parse_packet maskNone initStore syncPkt
        "t").2.channels.getD 0 scDefault).status.on_flag = false ∧
    ((sim_tick none (some offMask0) env0 1
        initSimState).channels_state.getD 0 chDefault).current = 0 ∧
    ((sim_tick none (some offMask0) env0 1
        initSimState).channels_state.getD 0 chDefault).status = 0 := by
  have hT : (parse_packet maskNone initStore syncPkt "t").1 = true := by
    rw [parse_packet_valid maskNone initStore syncPkt "t" (by decide)
      (by decide) (by decide)]
  have hcons := enable_mask_enforcement.1 maskNone initStore syncPkt "t" 0
    (by norm_num) rfl hT
  have hprod := enable_mask_enforcement.2 offMask0 env0 1 initSimState 0 rfl
    rfl rfl (by norm_num) rfl
  exact ⟨hcons.1, hcons.2, hprod.1, hprod.2 (by norm_num)⟩
